import Mathlib

/-!
Verification of the kHealth notification reconciliation and acknowledgment
engine (`custom_components/khealth/notify.py`).

The engine keeps a per-reminder-type `last_seen` map, diffs every polled
snapshot against it to decide send / dismiss / no-op, and handles inbound
mobile-app action events by posting an acknowledgment and clearing the
matching notification on a conclusive (200/409) outcome.

The definitions below are a shallow embedding of that module: Python dicts
over the two fixed reminder types become two-field structures, the channel
calls created by the engine become an explicit effect (`Task`) list, and the
HTTP outcome of the acknowledgment POST becomes an explicit parameter.
-/

namespace Khealth

/-- The fixed reminder types iterated by `_on_coordinator_update` and
`_handle_action` (the tuple `("movement", "hydration")`). -/
inductive ReminderType
  | movement
  | hydration
deriving DecidableEq, Repr

/-- The iteration order of the `for rtype in ("movement", "hydration")` loops. -/
def reminderTypes : List ReminderType := [.movement, .hydration]

/-- The string name of a reminder type, as used in tags. -/
def ReminderType.str : ReminderType → String
  | .movement => "movement"
  | .hydration => "hydration"

/-- The fields of a reminder record that the engine reads
(`reminder["id"]`, `reminder["message"]`). -/
structure Reminder where
  id : Nat
  message : String
deriving DecidableEq, Repr

/-- One poll's `active_reminders` mapping: for each type, the active
reminder or absence. -/
structure Snapshot where
  movement : Option Reminder
  hydration : Option Reminder
deriving DecidableEq, Repr

/-- `active.get(rtype)`. -/
def Snapshot.get (s : Snapshot) : ReminderType → Option Reminder
  | .movement => s.movement
  | .hydration => s.hydration

/-- The `self._last_seen` dict: per type, the id represented by an
outstanding notification, or `none`.  `.get` on a missing key yields `None`,
so the empty dict is the all-`none` state. -/
structure LastSeen where
  movement : Option Nat
  hydration : Option Nat
deriving DecidableEq, Repr

/-- `self._last_seen.get(rtype)`. -/
def LastSeen.get (ls : LastSeen) : ReminderType → Option Nat
  | .movement => ls.movement
  | .hydration => ls.hydration

/-- `self._last_seen[rtype] = v`. -/
def LastSeen.set (ls : LastSeen) : ReminderType → Option Nat → LastSeen
  | .movement, v => { ls with movement := v }
  | .hydration, v => { ls with hydration := v }

/-- The initial empty `self._last_seen = {}`. -/
def LastSeen.empty : LastSeen := ⟨none, none⟩

/-- A channel call the engine schedules: `_send_notification(reminder, rtype)`,
`_dismiss_notification(rtype)`, or the plain error notification sent when an
acknowledgment fails. -/
inductive Task
  | sendNotification (reminder : Reminder) (rtype : ReminderType)
  | dismissNotification (rtype : ReminderType)
  | errorNotification
deriving DecidableEq, Repr

/-- One iteration of the `for rtype in ("movement", "hydration")` loop of
`_on_coordinator_update`: compute `new_id` and `old_id`, schedule a send when
a reminder is present with a changed id, a dismiss when the reminder is gone
but one was outstanding, and write `last_seen[rtype] = new_id`. -/
def reconcileType (ls : LastSeen) (snap : Snapshot) (t : ReminderType) :
    LastSeen × List Task :=
  let newReminder := snap.get t
  let oldId := ls.get t
  let newId := newReminder.map Reminder.id
  let tasks : List Task :=
    match newReminder with
    | some r => if newId ≠ oldId then [Task.sendNotification r t] else []
    | none => if oldId ≠ none then [Task.dismissNotification t] else []
  (ls.set t newId, tasks)

/-- `_on_coordinator_update` over one delivered snapshot: the loop body
applied to `movement` then `hydration`, accumulating the scheduled channel
calls in order. -/
def onSnapshot (ls : LastSeen) (snap : Snapshot) : LastSeen × List Task :=
  reminderTypes.foldl
    (fun acc t =>
      let step := reconcileType acc.1 snap t
      (step.1, acc.2 ++ step.2))
    (ls, [])

/-- Successive snapshot deliveries: thread `last_seen` through
`_on_coordinator_update` once per snapshot, collecting all channel calls. -/
def runSnaps (ls : LastSeen) : List Snapshot → LastSeen × List Task
  | [] => (ls, [])
  | s :: rest =>
    let p := onSnapshot ls s
    let q := runSnaps p.1 rest
    (q.1, p.2 ++ q.2)

/-- Which reminder type a channel call is about. -/
def Task.isFor (t : ReminderType) : Task → Bool
  | .sendNotification _ u => u == t
  | .dismissNotification u => u == t
  | .errorNotification => false

/-- The channel calls issued for one reminder type. -/
def tasksFor (t : ReminderType) (ts : List Task) : List Task :=
  ts.filter (Task.isFor t)

/-- Follows the spec's three-way case split for one type, written from the
spec's words (§4.1): Send when a reminder is present with an id different
from `LastSeen[t]`, Dismiss when absent while one was outstanding, no effect
when `newId == oldId` (both `None` included).  Compared against the effects
the code issues. -/
def specEffect (oldId : Option Nat) (newR : Option Reminder) (t : ReminderType) :
    List Task :=
  match newR, oldId with
  | some r, some o => if r.id ≠ o then [Task.sendNotification r t] else []
  | some r, none => [Task.sendNotification r t]
  | none, some _ => [Task.dismissNotification t]
  | none, none => []

/-- One entry of the `actions` list of a notification payload. -/
structure NotifyAction where
  action : String
  title : String
  behavior : Option String
  textInputButtonTitle : Option String
  textInputPlaceholder : Option String
deriving DecidableEq, Repr

/-- The service-call data of a `notify` call: message, optional title and the
`data` fields the engine sets (tag, group, actions). -/
structure NotificationPayload where
  message : String
  title : Option String
  tag : Option String
  group : Option String
  actions : List NotifyAction
deriving DecidableEq, Repr

/-- The tag `f"khealth-{rtype}"`. -/
def khealthTag (t : ReminderType) : String := "khealth-" ++ t.str

/-- The payload built by `_send_notification`: the reminder's message, title
`"kHealth"`, the per-type tag, and the four action buttons whose identifiers
encode the verb and the reminder id; only the fourth requests text input. -/
def sendPayload (r : Reminder) (t : ReminderType) : NotificationPayload :=
  { message := r.message
    title := some "kHealth"
    tag := some (khealthTag t)
    group := some "khealth"
    actions :=
      [{ action := "KHEALTH_DONE_" ++ toString r.id, title := "Done",
         behavior := none, textInputButtonTitle := none, textInputPlaceholder := none },
       { action := "KHEALTH_SKIP_" ++ toString r.id, title := "Skip",
         behavior := none, textInputButtonTitle := none, textInputPlaceholder := none },
       { action := "KHEALTH_SNOOZE_" ++ toString r.id, title := "Snooze",
         behavior := none, textInputButtonTitle := none, textInputPlaceholder := none },
       { action := "KHEALTH_ALT_" ++ toString r.id, title := "Alternative...",
         behavior := some "textInput", textInputButtonTitle := some "Send",
         textInputPlaceholder := some "What did you do instead?" }] }

/-- The payload built by `_dismiss_notification`: the sentinel message
`"clear_notification"` with the same per-type tag, no title, no actions. -/
def dismissPayload (t : ReminderType) : NotificationPayload :=
  { message := "clear_notification", title := none, tag := some (khealthTag t),
    group := none, actions := [] }

/-- The plain error notification sent when an acknowledgment fails. -/
def errorPayload : NotificationPayload :=
  { message := "Failed to record response. Please try again.",
    title := some "kHealth Error", tag := none, group := none, actions := [] }

/-- The service-call data each scheduled channel call delivers. -/
def Task.payload : Task → NotificationPayload
  | .sendNotification r t => sendPayload r t
  | .dismissNotification t => dismissPayload t
  | .errorNotification => errorPayload

/-- The verbs of `ACTION_PATTERN`, `(DONE|SKIP|SNOOZE|ALT)`. -/
inductive Verb
  | DONE
  | SKIP
  | SNOOZE
  | ALT
deriving DecidableEq, Repr

/-- The verb's text inside an action token. -/
def Verb.token : Verb → String
  | .DONE => "DONE"
  | .SKIP => "SKIP"
  | .SNOOZE => "SNOOZE"
  | .ALT => "ALT"

/-- `RESPONSE_MAP`. -/
def Verb.response : Verb → String
  | .DONE => "done"
  | .SKIP => "skipped"
  | .SNOOZE => "snoozed"
  | .ALT => "alternative"

/-- Strip an expected leading character sequence, or fail. -/
def dropPre : List Char → List Char → Option (List Char)
  | [], s => some s
  | _ :: _, [] => none
  | p :: ps, c :: cs => if c = p then dropPre ps cs else none

/-- The first code point of every run of ten Unicode decimal digits
(category Nd, Unicode 14.0.0, CPython 3.11's table): the exact character set
Python's `\d` matches in a `str` pattern.  Within a run the decimal value of
a digit is its offset from the run's start, which is also what `int()` uses. -/
def pyDigitRunStarts : List Nat :=
  [48, 1632, 1776, 1984, 2406, 2534, 2662, 2790, 2918, 3046, 3174, 3302,
   3430, 3558, 3664, 3792, 3872, 4160, 4240, 6112, 6160, 6470, 6608, 6784,
   6800, 6992, 7088, 7232, 7248, 42528, 43216, 43264, 43472, 43504, 43600,
   44016, 65296, 66720, 68912, 69734, 69872, 69942, 70096, 70384, 70736,
   70864, 71248, 71360, 71472, 71904, 72016, 72784, 73040, 73120, 92768,
   92864, 93008, 120782, 120792, 120802, 120812, 120822, 123200, 123632,
   125264, 130032]

/-- The decimal value of a character `\d` matches, or `none` when it is not
a decimal digit. -/
def pyDigitVal (c : Char) : Option Nat :=
  (pyDigitRunStarts.find?
      (fun s => decide (s ≤ c.toNat ∧ c.toNat < s + 10))).map
    (fun s => c.toNat - s)

/-- Whether `\d` matches the character. -/
def pyIsDigit (c : Char) : Bool := (pyDigitVal c).isSome

/-- Decimal value of a non-empty sequence of decimal digits (the `(\d+)`
group followed by `int(...)`, both over Unicode decimal digits); `none`
otherwise. -/
def parseDigits (cs : List Char) : Option Nat :=
  if cs ≠ [] ∧ cs.all pyIsDigit then
    some (cs.foldl (fun acc c => acc * 10 + (pyDigitVal c).getD 0) 0)
  else none

/-- Python's `$` anchor without MULTILINE: it matches at the end of the
string and also just before one newline that ends the string, so the part
the anchor closes may carry one trailing newline.  Model: remove one final
newline, if present, before requiring the digits to run to the end. -/
def dropFinalNewline (cs : List Char) : List Char :=
  if cs.getLast? = some (Char.ofNat 10) then cs.dropLast else cs

/-- Match one alternative of `ACTION_PATTERN`: the anchored shape
`KHEALTH_<verb>_<digits>`, with `$`'s tolerance for one final newline. -/
def matchVerb (v : Verb) (s : List Char) : Option (Verb × Nat) :=
  match dropPre ("KHEALTH_" ++ v.token ++ "_").data s with
  | some rest => (parseDigits (dropFinalNewline rest)).map (fun n => (v, n))
  | none => none

/-- `ACTION_PATTERN.match(action)` followed by reading the two groups:
the verb and the parsed reminder id, or `none` for a non-matching string. -/
def parseAction (s : String) : Option (Verb × Nat) :=
  (matchVerb .DONE s.data) <|> (matchVerb .SKIP s.data) <|>
    (matchVerb .SNOOZE s.data) <|> (matchVerb .ALT s.data)

/-- An inbound `mobile_app_notification_action` event's data read by the
handler: `event.data.get("action", "")` and `event.data.get("reply_text", "")`. -/
structure ActionEvent where
  action : String
  replyText : Option String
deriving DecidableEq, Repr

/-- The outcome of the acknowledgment POST as the handler observes it: an
HTTP status, or a transport-level failure (`aiohttp.ClientError`,
`TimeoutError`). -/
inductive AckOutcome
  | status (code : Nat)
  | transportError
deriving DecidableEq, Repr

/-- Whether the outcome is conclusive for the handler: `resp.status == 409`
passes silently, any status other than `200` raises into the error path, and
a transport failure is the error path. -/
def AckOutcome.conclusive : AckOutcome → Bool
  | .status c => c == 409 || c == 200
  | .transportError => false

/-- The body of the acknowledgment POST: `reminder_id`, `response`, and
`notes` only when present. -/
structure AckRequest where
  reminderId : Nat
  response : String
  notes : Option String
deriving DecidableEq, Repr

/-- What one invocation of `_handle_action` did: the acknowledgment requests
submitted (at most one; never retried), the channel calls issued, and the
`last_seen` map afterwards. -/
structure HandleResult where
  requests : List AckRequest
  tasks : List Task
  lastSeen : LastSeen
deriving DecidableEq, Repr

/-- The `for rtype in ("movement", "hydration")` scan with `break`: the first
type whose `last_seen` entry equals the acknowledged id. -/
def findMatch (ls : LastSeen) (rid : Nat) : Option ReminderType :=
  reminderTypes.find? (fun t => ls.get t == some rid)

/-- `_handle_action`: parse the action token (silently ignoring non-matching
strings), build the acknowledgment body (notes only for a non-empty ALT
reply), submit it once, and on a conclusive outcome dismiss the notification
of the first type whose `last_seen` equals the acknowledged id; otherwise
send one plain error notification.  `last_seen` is never written. -/
def handleAction (ls : LastSeen) (ev : ActionEvent) (outcome : AckOutcome) :
    HandleResult :=
  match parseAction ev.action with
  | none => ⟨[], [], ls⟩
  | some (v, rid) =>
    let notes := if v = Verb.ALT then ev.replyText.getD "" else ""
    let body : AckRequest :=
      { reminderId := rid, response := v.response,
        notes := if notes ≠ "" then some notes else none }
    if outcome.conclusive then
      ⟨[body],
       match findMatch ls rid with
       | some t => [Task.dismissNotification t]
       | none => [],
       ls⟩
    else
      ⟨[body], [Task.errorNotification], ls⟩

/-- Provenance of a channel call in a run: issued by the reconciliation path
(`_on_coordinator_update`) or by the acknowledgment path (`_handle_action`). -/
inductive Source
  | recon
  | ack
deriving DecidableEq, Repr

/-- One external stimulus of the engine: a delivered snapshot, or an inbound
action event together with the outcome its acknowledgment POST meets. -/
inductive SysEvent
  | snap (s : Snapshot)
  | act (ev : ActionEvent) (outcome : AckOutcome)
deriving DecidableEq, Repr

/-- One engine step, tagging each issued channel call with its provenance. -/
def stepSys (ls : LastSeen) : SysEvent → LastSeen × List (Source × Task)
  | .snap s =>
    let p := onSnapshot ls s
    (p.1, p.2.map (fun task => (Source.recon, task)))
  | .act ev outcome =>
    let r := handleAction ls ev outcome
    (r.lastSeen, r.tasks.map (fun task => (Source.ack, task)))

/-- A run: any interleaving of snapshot deliveries and action events, from a
given `last_seen` state, collecting the provenance-tagged channel calls. -/
def runSys (ls : LastSeen) : List SysEvent → LastSeen × List (Source × Task)
  | [] => (ls, [])
  | e :: es =>
    let p := stepSys ls e
    let q := runSys p.1 es
    (q.1, p.2 ++ q.2)

/-- Follows the spec's invariant wording (§3): the id of the most recent Send
issued for `t` that has not since been followed by a Dismiss for `t` —
counting every Dismiss, the acknowledgment path's included — and `none`
otherwise. -/
def specTracked (t : ReminderType) (trace : List (Source × Task)) : Option Nat :=
  trace.foldl
    (fun acc p =>
      match p.2 with
      | .sendNotification r u => if u = t then some r.id else acc
      | .dismissNotification u => if u = t then none else acc
      | .errorNotification => acc)
    none

/-- One trace step of the amended tracker: a Send for `t` records its id, a
Dismiss for `t` resets it only when issued by the reconciliation path, and
everything else leaves it unchanged. -/
def amendStep (t : ReminderType) (acc : Option Nat) : Source × Task → Option Nat
  | (_, .sendNotification r u) => if u = t then some r.id else acc
  | (src, .dismissNotification u) =>
    if u = t ∧ src = Source.recon then none else acc
  | (_, .errorNotification) => acc

/-- The amended tracker over a whole trace: the id of the most recent Send
issued for `t` not since followed by a reconciliation-path Dismiss for `t`. -/
def amendTracked (t : ReminderType) (trace : List (Source × Task)) : Option Nat :=
  trace.foldl (amendStep t) none

/-! ### The parser's domain boundary

`ACTION_PATTERN.match` accepts one trailing newline (`$` without MULTILINE)
and Unicode decimal digits (`\d` over `str`), which `int()` parses; the
following pin the embedding to that boundary on both sides. -/

theorem parseAction_trailing_newline :
    parseAction "KHEALTH_DONE_42\n" = some (Verb.DONE, 42) := by decide

theorem parseAction_fullwidth_digits :
    parseAction "KHEALTH_DONE_４２" = some (Verb.DONE, 42) := by decide

theorem parseAction_two_newlines :
    parseAction "KHEALTH_DONE_42\n\n" = none := by decide

theorem parseAction_newline_only :
    parseAction "KHEALTH_DONE_\n" = none := by decide

theorem parseAction_superscript_two :
    parseAction "KHEALTH_DONE_²" = none := by decide

/-! ### Helper lemmas about the reconciliation engine -/

theorem LastSeen.get_set (ls : LastSeen) (u t : ReminderType) (v : Option Nat) :
    (ls.set u v).get t = if t = u then v else ls.get t := by
  cases u <;> cases t <;> simp [LastSeen.set, LastSeen.get]

theorem reconcileType_fst (ls : LastSeen) (snap : Snapshot) (u t : ReminderType) :
    (reconcileType ls snap u).1.get t =
      if t = u then (snap.get u).map Reminder.id else ls.get t := by
  simp [reconcileType, LastSeen.get_set]

theorem reconcileType_snd (ls : LastSeen) (snap : Snapshot) (u : ReminderType) :
    (reconcileType ls snap u).2 = specEffect (ls.get u) (snap.get u) u := by
  cases hn : snap.get u <;> cases ho : ls.get u <;>
    simp [reconcileType, specEffect, hn, ho]

theorem tasksFor_nil (t : ReminderType) : tasksFor t [] = [] := rfl

theorem tasksFor_send (r : Reminder) (u t : ReminderType) :
    tasksFor t [Task.sendNotification r u] =
      if t = u then [Task.sendNotification r u] else [] := by
  by_cases h : t = u
  · subst h; simp [tasksFor, Task.isFor]
  · have h2 : u ≠ t := fun hh => h hh.symm
    simp [tasksFor, Task.isFor, h, h2]

theorem tasksFor_dismiss (u t : ReminderType) :
    tasksFor t [Task.dismissNotification u] =
      if t = u then [Task.dismissNotification u] else [] := by
  by_cases h : t = u
  · subst h; simp [tasksFor, Task.isFor]
  · have h2 : u ≠ t := fun hh => h hh.symm
    simp [tasksFor, Task.isFor, h, h2]

theorem tasksFor_append (t : ReminderType) (l1 l2 : List Task) :
    tasksFor t (l1 ++ l2) = tasksFor t l1 ++ tasksFor t l2 := by
  simp [tasksFor, List.filter_append]

theorem tasksFor_specEffect (oldId : Option Nat) (newR : Option Reminder)
    (u t : ReminderType) :
    tasksFor t (specEffect oldId newR u) =
      if t = u then specEffect oldId newR u else [] := by
  cases newR with
  | none =>
    cases oldId with
    | none => simp [specEffect, tasksFor]
    | some o => simp [specEffect, tasksFor_dismiss]
  | some r =>
    cases oldId with
    | none => simp [specEffect, tasksFor_send]
    | some o =>
      by_cases hio : r.id = o
      · simp [specEffect, hio, tasksFor]
      · simp [specEffect, hio, tasksFor_send]

theorem onSnapshot_eq (ls : LastSeen) (snap : Snapshot) :
    onSnapshot ls snap =
      ((reconcileType (reconcileType ls snap .movement).1 snap .hydration).1,
        (reconcileType ls snap .movement).2 ++
          (reconcileType (reconcileType ls snap .movement).1 snap .hydration).2) := by
  simp [onSnapshot, reminderTypes]

theorem onSnapshot_fst (ls : LastSeen) (snap : Snapshot) (t : ReminderType) :
    (onSnapshot ls snap).1.get t = (snap.get t).map Reminder.id := by
  cases t <;> simp [onSnapshot_eq, reconcileType_fst]

theorem onSnapshot_tasksFor (ls : LastSeen) (snap : Snapshot) (t : ReminderType) :
    tasksFor t (onSnapshot ls snap).2 = specEffect (ls.get t) (snap.get t) t := by
  have hsnd : (onSnapshot ls snap).2 =
      (reconcileType ls snap .movement).2 ++
        (reconcileType (reconcileType ls snap .movement).1 snap .hydration).2 := by
    rw [onSnapshot_eq]
  have hget : (reconcileType ls snap .movement).1.get .hydration =
      ls.get .hydration := by
    simp [reconcileType_fst]
  rw [hsnd, tasksFor_append, reconcileType_snd, reconcileType_snd, hget,
    tasksFor_specEffect, tasksFor_specEffect]
  cases t <;> simp

/-! ### Helper lemmas about the acknowledgment path and whole runs -/

theorem handleAction_lastSeen (ls : LastSeen) (ev : ActionEvent)
    (outcome : AckOutcome) : (handleAction ls ev outcome).lastSeen = ls := by
  cases hp : parseAction ev.action with
  | none => simp [handleAction, hp]
  | some p =>
    cases p with
    | mk v rid => cases hc : outcome.conclusive <;> simp [handleAction, hp, hc]

theorem handleAction_parsed (ls : LastSeen) (ev : ActionEvent)
    (outcome : AckOutcome) (v : Verb) (rid : Nat)
    (hp : parseAction ev.action = some (v, rid)) :
    handleAction ls ev outcome =
      ⟨[{ reminderId := rid, response := v.response,
          notes :=
            if v = Verb.ALT ∧ ev.replyText.getD "" ≠ "" then
              some (ev.replyText.getD "")
            else none }],
        if outcome.conclusive then
          match findMatch ls rid with
          | some t => [Task.dismissNotification t]
          | none => []
        else [Task.errorNotification],
        ls⟩ := by
  have hnotes :
      (if (if v = Verb.ALT then ev.replyText.getD "" else "") ≠ "" then
        some (if v = Verb.ALT then ev.replyText.getD "" else "")
      else none) =
      if v = Verb.ALT ∧ ev.replyText.getD "" ≠ "" then
        some (ev.replyText.getD "")
      else none := by
    by_cases hv : v = Verb.ALT
    · by_cases hr : ev.replyText.getD "" = ""
      · simp [hv, hr]
      · simp [hv, hr]
    · simp [hv]
  cases hc : outcome.conclusive <;>
    simp only [handleAction, hp, hc, if_true, if_false, Bool.false_eq_true,
      ite_false, ite_true] <;>
    exact congrArg (fun n => HandleResult.mk
      [{ reminderId := rid, response := v.response, notes := n }] _ ls) hnotes

theorem findMatch_mem (ls : LastSeen) (rid : Nat) (t : ReminderType)
    (h : findMatch ls rid = some t) : ls.get t = some rid := by
  have := List.find?_some h
  simpa using this

theorem findMatch_cases (ls : LastSeen) (rid : Nat) :
    findMatch ls rid =
      if ls.get .movement = some rid then some .movement
      else if ls.get .hydration = some rid then some .hydration
      else none := by
  by_cases hm : ls.get ReminderType.movement = some rid
  · have hm2 : (ls.get ReminderType.movement == some rid) = true := by simp [hm]
    simp [findMatch, reminderTypes, List.find?, hm, hm2]
  · have hm2 : (ls.get ReminderType.movement == some rid) = false := by simp [hm]
    by_cases hh : ls.get ReminderType.hydration = some rid
    · have hh2 : (ls.get ReminderType.hydration == some rid) = true := by
        simp [hh]
      simp [findMatch, reminderTypes, List.find?, hm, hh, hm2, hh2]
    · have hh2 : (ls.get ReminderType.hydration == some rid) = false := by
        simp [hh]
      simp [findMatch, reminderTypes, List.find?, hm, hh, hm2, hh2]

theorem findMatch_none_iff (ls : LastSeen) (rid : Nat) :
    findMatch ls rid = none ↔ ∀ t, ls.get t ≠ some rid := by
  rw [findMatch_cases]
  constructor
  · intro h t
    by_cases hm : ls.get ReminderType.movement = some rid
    · simp [hm] at h
    · by_cases hh : ls.get ReminderType.hydration = some rid
      · simp [hm, hh] at h
      · cases t <;> simpa
  · intro h
    simp [h ReminderType.movement, h ReminderType.hydration]

theorem handleAction_task_cases (ls : LastSeen) (ev : ActionEvent)
    (outcome : AckOutcome) :
    (handleAction ls ev outcome).tasks = [] ∨
      (handleAction ls ev outcome).tasks = [Task.errorNotification] ∨
      ∃ t, (handleAction ls ev outcome).tasks = [Task.dismissNotification t] := by
  cases hp : parseAction ev.action with
  | none => left; simp [handleAction, hp]
  | some p =>
    cases p with
    | mk v rid =>
      cases hc : outcome.conclusive
      · right; left; simp [handleAction, hp, hc]
      · cases hm : findMatch ls rid with
        | none => left; simp [handleAction, hp, hc, hm]
        | some t => right; right; exact ⟨t, by simp [handleAction, hp, hc, hm]⟩

theorem amendStep_ack (t : ReminderType) (acc : Option Nat) (task : Task) :
    amendStep t acc (Source.ack, task) =
      match task with
      | .sendNotification r u => if u = t then some r.id else acc
      | _ => acc := by
  cases task <;> simp [amendStep]

theorem ack_fold (ls : LastSeen) (ev : ActionEvent) (outcome : AckOutcome)
    (t : ReminderType) (acc : Option Nat) :
    ((handleAction ls ev outcome).tasks.map (fun task => (Source.ack, task))).foldl
        (amendStep t) acc = acc := by
  rcases handleAction_task_cases ls ev outcome with h | h | ⟨u, h⟩ <;>
    simp [h, amendStep]

theorem recon_fold (ls : LastSeen) (snap : Snapshot) (u t : ReminderType) :
    ((reconcileType ls snap u).2.map (fun task => (Source.recon, task))).foldl
        (amendStep t) (ls.get t) = (reconcileType ls snap u).1.get t := by
  by_cases h : t = u
  · subst h
    cases hn : snap.get t with
    | none =>
      cases ho : ls.get t <;>
        simp [reconcileType_snd, reconcileType_fst, specEffect, hn, ho, amendStep]
    | some r =>
      cases ho : ls.get t with
      | none =>
        simp [reconcileType_snd, reconcileType_fst, specEffect, hn, ho, amendStep]
      | some o =>
        by_cases hio : r.id = o <;>
          simp [reconcileType_snd, reconcileType_fst, specEffect, hn, ho, hio,
            amendStep]
  · have h2 : ¬ u = t := fun hh => h hh.symm
    rw [reconcileType_snd]
    have hfst : (reconcileType ls snap u).1.get t = ls.get t := by
      simp [reconcileType_fst, h]
    rw [hfst]
    cases hn : snap.get u with
    | none => cases ho : ls.get u <;> simp [specEffect, amendStep, h2]
    | some r =>
      cases ho : ls.get u with
      | none => simp [specEffect, amendStep, h2]
      | some o =>
        by_cases hio : r.id = o <;> simp [specEffect, amendStep, h2, hio]

theorem snap_fold (ls : LastSeen) (snap : Snapshot) (t : ReminderType) :
    ((onSnapshot ls snap).2.map (fun task => (Source.recon, task))).foldl
        (amendStep t) (ls.get t) = (onSnapshot ls snap).1.get t := by
  rw [onSnapshot_eq]
  simp only [List.map_append, List.foldl_append]
  rw [recon_fold, recon_fold]

theorem stepSys_track (ls : LastSeen) (e : SysEvent) (t : ReminderType) :
    (stepSys ls e).1.get t = (stepSys ls e).2.foldl (amendStep t) (ls.get t) := by
  cases e with
  | snap s => simp only [stepSys]; rw [snap_fold]
  | act ev outcome =>
    simp only [stepSys]
    rw [ack_fold, handleAction_lastSeen]

theorem runSys_track (es : List SysEvent) (ls : LastSeen) (t : ReminderType) :
    (runSys ls es).1.get t = (runSys ls es).2.foldl (amendStep t) (ls.get t) := by
  induction es generalizing ls with
  | nil => simp [runSys]
  | cons e es ih =>
    simp only [runSys, List.foldl_append]
    rw [← stepSys_track, ih]

/-! ### The claims -/

/-- Claim C1: for every delivered snapshot and reminder type `t`, processing
issues exactly one of three effects for `t`, determined by `newId` and
`oldId`: a Send of the reminder when present with a changed id (no
accompanying Dismiss, also when a notification is outstanding), a Dismiss
when absent while one was outstanding, and nothing when `newId = oldId`;
afterwards `LastSeen[t] = newId`. -/
theorem c1_snapshot_effects (ls : LastSeen) (snap : Snapshot) (t : ReminderType) :
    (onSnapshot ls snap).1.get t = (snap.get t).map Reminder.id ∧
    tasksFor t (onSnapshot ls snap).2 = specEffect (ls.get t) (snap.get t) t :=
  ⟨onSnapshot_fst ls snap t, onSnapshot_tasksFor ls snap t⟩

/-- Claim C2: on the snapshot sequence where `t`'s id goes None, 5, 7, the
effects issued for `t` are exactly one Send for id 5 followed by one Send for
id 7, with zero Dismiss calls (replace-without-dismiss). -/
theorem c2_replace_without_dismiss (ls : LastSeen) (t : ReminderType)
    (s0 s1 s2 : Snapshot) (r1 r2 : Reminder)
    (h0 : ls.get t = none) (hs0 : s0.get t = none)
    (hs1 : s1.get t = some r1) (hr1 : r1.id = 5)
    (hs2 : s2.get t = some r2) (hr2 : r2.id = 7) :
    tasksFor t (runSnaps ls [s0, s1, s2]).2 =
      [Task.sendNotification r1 t, Task.sendNotification r2 t] := by
  have f0 : (onSnapshot ls s0).1.get t = none := by
    rw [onSnapshot_fst, hs0]; rfl
  have f1 : (onSnapshot (onSnapshot ls s0).1 s1).1.get t = some r1.id := by
    rw [onSnapshot_fst, hs1]; rfl
  have e0 : tasksFor t (onSnapshot ls s0).2 = [] := by
    rw [onSnapshot_tasksFor, h0, hs0]; rfl
  have e1 : tasksFor t (onSnapshot (onSnapshot ls s0).1 s1).2 =
      [Task.sendNotification r1 t] := by
    rw [onSnapshot_tasksFor, f0, hs1]; rfl
  have e2 : tasksFor t
      (onSnapshot (onSnapshot (onSnapshot ls s0).1 s1).1 s2).2 =
      [Task.sendNotification r2 t] := by
    rw [onSnapshot_tasksFor, f1, hs2, hr1]
    simp [specEffect, hr2]
  simp [runSnaps, tasksFor_append, e0, e1, e2, tasksFor_nil]

theorem c2_witness :
    LastSeen.empty.get ReminderType.movement = none ∧
    (Snapshot.mk none none).get ReminderType.movement = none ∧
    (Snapshot.mk (some ⟨5, "a"⟩) none).get ReminderType.movement = some ⟨5, "a"⟩ ∧
    Reminder.id ⟨5, "a"⟩ = 5 ∧
    (Snapshot.mk (some ⟨7, "b"⟩) none).get ReminderType.movement = some ⟨7, "b"⟩ ∧
    Reminder.id ⟨7, "b"⟩ = 7 ∧
    tasksFor ReminderType.movement
      (runSnaps LastSeen.empty
        [Snapshot.mk none none, Snapshot.mk (some ⟨5, "a"⟩) none,
          Snapshot.mk (some ⟨7, "b"⟩) none]).2 =
      [Task.sendNotification ⟨5, "a"⟩ ReminderType.movement,
        Task.sendNotification ⟨7, "b"⟩ ReminderType.movement] :=
  ⟨by decide, by decide, by decide, by decide, by decide, by decide,
    c2_replace_without_dismiss LastSeen.empty ReminderType.movement
      (Snapshot.mk none none) (Snapshot.mk (some ⟨5, "a"⟩) none)
      (Snapshot.mk (some ⟨7, "b"⟩) none) ⟨5, "a"⟩ ⟨7, "b"⟩
      (by decide) (by decide) (by decide) (by decide) (by decide) (by decide)⟩

/-- The run exhibiting C3's failure: a Send for id 5 on `movement`, then a
conclusive DONE acknowledgment for id 5, whose Dismiss does not reset
`last_seen`. -/
def c3Events : List SysEvent :=
  [SysEvent.snap ⟨some ⟨5, "Time to move"⟩, none⟩,
    SysEvent.act ⟨"KHEALTH_DONE_5", none⟩ (AckOutcome.status 200)]

/-- Claim C3 (counterexample): after a Send for id 5 followed by an
acknowledgment-path Dismiss for the same id, `LastSeen[movement]` is still
`some 5`, while the spec's tracker — most recent Send not since followed by
any Dismiss — is `none`; the claimed equality fails at this reachable state,
and in particular the conclusive acknowledgment does not leave
`LastSeen[t] = None`. -/
theorem c3_counterexample :
    (runSys LastSeen.empty c3Events).1.get ReminderType.movement = some 5 ∧
    specTracked ReminderType.movement (runSys LastSeen.empty c3Events).2 = none := by
  exact ⟨by decide, by decide⟩

/-- Claim C3 (amended): at every reachable state of a run, `LastSeen[t]`
equals the id of the most recent Send issued for `t` that has not since been
followed by a reconciliation-path Dismiss for `t` (`none` otherwise); the
Dismiss issued by the acknowledgment path on a conclusive outcome leaves
`LastSeen[t]` unchanged, still holding the acknowledged id. -/
theorem c3_lastSeen_tracks_sends (es : List SysEvent) (t : ReminderType) :
    (runSys LastSeen.empty es).1.get t =
      amendTracked t (runSys LastSeen.empty es).2 := by
  have he : LastSeen.empty.get t = none := by cases t <;> rfl
  rw [runSys_track es LastSeen.empty t, amendTracked, he]

/-- Claim C4: for a parsed action with a conclusive (200 or 409) outcome the
handler issues exactly one Dismiss for the type whose `LastSeen` equals the
acknowledged id, sends zero error notifications, treats 409 identically to
200, and when no type matches — an id never seen included, for which the
acknowledgment is still submitted — issues no Dismiss at all. -/
theorem c4_conclusive_dismiss (ls : LastSeen) (ev : ActionEvent)
    (outcome : AckOutcome) (v : Verb) (rid : Nat)
    (hp : parseAction ev.action = some (v, rid))
    (hc : outcome.conclusive = true) :
    (handleAction ls ev outcome).requests.length = 1 ∧
    (handleAction ls ev outcome).tasks =
      (match findMatch ls rid with
        | some t => [Task.dismissNotification t]
        | none => []) ∧
    Task.errorNotification ∉ (handleAction ls ev outcome).tasks ∧
    (∀ t, findMatch ls rid = some t → ls.get t = some rid) ∧
    (findMatch ls rid = none ↔ ∀ t, ls.get t ≠ some rid) ∧
    handleAction ls ev (AckOutcome.status 409) =
      handleAction ls ev (AckOutcome.status 200) := by
  rw [handleAction_parsed ls ev outcome v rid hp,
    handleAction_parsed ls ev (AckOutcome.status 409) v rid hp,
    handleAction_parsed ls ev (AckOutcome.status 200) v rid hp]
  refine ⟨rfl, by simp [hc], ?_, fun t => findMatch_mem ls rid t,
    findMatch_none_iff ls rid, by simp [AckOutcome.conclusive]⟩
  simp only [hc, if_true]
  cases findMatch ls rid <;> simp

theorem c4_witness :
    parseAction "KHEALTH_DONE_42" = some (Verb.DONE, 42) ∧
    (AckOutcome.status 200).conclusive = true ∧
    ((handleAction ⟨some 42, none⟩ ⟨"KHEALTH_DONE_42", none⟩
        (AckOutcome.status 200)).requests.length = 1 ∧
      (handleAction ⟨some 42, none⟩ ⟨"KHEALTH_DONE_42", none⟩
          (AckOutcome.status 200)).tasks =
        (match findMatch ⟨some 42, none⟩ 42 with
          | some t => [Task.dismissNotification t]
          | none => []) ∧
      Task.errorNotification ∉
        (handleAction ⟨some 42, none⟩ ⟨"KHEALTH_DONE_42", none⟩
          (AckOutcome.status 200)).tasks ∧
      (∀ t, findMatch ⟨some 42, none⟩ 42 = some t →
        LastSeen.get ⟨some 42, none⟩ t = some 42) ∧
      (findMatch ⟨some 42, none⟩ 42 = none ↔
        ∀ t, LastSeen.get ⟨some 42, none⟩ t ≠ some 42) ∧
      handleAction ⟨some 42, none⟩ ⟨"KHEALTH_DONE_42", none⟩
          (AckOutcome.status 409) =
        handleAction ⟨some 42, none⟩ ⟨"KHEALTH_DONE_42", none⟩
          (AckOutcome.status 200)) :=
  ⟨by decide, by decide,
    c4_conclusive_dismiss ⟨some 42, none⟩ ⟨"KHEALTH_DONE_42", none⟩
      (AckOutcome.status 200) Verb.DONE 42 (by decide) (by decide)⟩

/-- Claim C5: for a parsed action whose acknowledgment is inconclusive (any
status other than 200/409, or a transport failure), the handler issues zero
Dismiss calls, exactly one plain non-actionable error notification telling
the user the response was not recorded, does not mutate `last_seen`, and
submits the request exactly once (no retry). -/
theorem c5_failed_ack (ls : LastSeen) (ev : ActionEvent) (outcome : AckOutcome)
    (v : Verb) (rid : Nat)
    (hp : parseAction ev.action = some (v, rid))
    (hc : outcome.conclusive = false) :
    (handleAction ls ev outcome).tasks = [Task.errorNotification] ∧
    (handleAction ls ev outcome).lastSeen = ls ∧
    (handleAction ls ev outcome).requests.length = 1 ∧
    Task.errorNotification.payload.actions = [] ∧
    Task.errorNotification.payload.message =
      "Failed to record response. Please try again." := by
  rw [handleAction_parsed ls ev outcome v rid hp]
  refine ⟨by simp [hc], rfl, rfl, rfl, rfl⟩

theorem c5_witness :
    parseAction "KHEALTH_DONE_42" = some (Verb.DONE, 42) ∧
    AckOutcome.transportError.conclusive = false ∧
    ((handleAction LastSeen.empty ⟨"KHEALTH_DONE_42", none⟩
        AckOutcome.transportError).tasks = [Task.errorNotification] ∧
      (handleAction LastSeen.empty ⟨"KHEALTH_DONE_42", none⟩
        AckOutcome.transportError).lastSeen = LastSeen.empty ∧
      (handleAction LastSeen.empty ⟨"KHEALTH_DONE_42", none⟩
        AckOutcome.transportError).requests.length = 1 ∧
      Task.errorNotification.payload.actions = [] ∧
      Task.errorNotification.payload.message =
        "Failed to record response. Please try again.") :=
  ⟨by decide, by decide,
    c5_failed_ack LastSeen.empty ⟨"KHEALTH_DONE_42", none⟩
      AckOutcome.transportError Verb.DONE 42 (by decide) (by decide)⟩

/-- Claim C6: replaying the identical snapshot twice produces channel effects
only on the first call, and on the sequence None, 5, 5, None the effects for
`t` are exactly one Send for id 5 then one Dismiss, in that order, with no
duplicate Send for the unchanged middle snapshot. -/
theorem c6_idempotent_replay (ls0 : LastSeen) (snap : Snapshot)
    (ls : LastSeen) (t : ReminderType) (s0 s1 s2 s3 : Snapshot)
    (r1 r2 : Reminder)
    (h0 : ls.get t = none) (hs0 : s0.get t = none)
    (hs1 : s1.get t = some r1) (hr1 : r1.id = 5)
    (hs2 : s2.get t = some r2) (hr2 : r2.id = 5) (hs3 : s3.get t = none) :
    (onSnapshot (onSnapshot ls0 snap).1 snap).2 = [] ∧
    tasksFor t (runSnaps ls [s0, s1, s2, s3]).2 =
      [Task.sendNotification r1 t, Task.dismissNotification t] := by
  have noop : ∀ (x : Option Reminder) (u : ReminderType),
      specEffect (x.map Reminder.id) x u = [] := by
    intro x u; cases x <;> simp [specEffect]
  constructor
  · have hA : (reconcileType (onSnapshot ls0 snap).1 snap .movement).2 = [] := by
      rw [reconcileType_snd, onSnapshot_fst]; exact noop _ _
    have hB : (reconcileType
        (reconcileType (onSnapshot ls0 snap).1 snap .movement).1 snap
        .hydration).2 = [] := by
      rw [reconcileType_snd]
      have hg : (reconcileType (onSnapshot ls0 snap).1 snap .movement).1.get
          .hydration = (onSnapshot ls0 snap).1.get .hydration := by
        simp [reconcileType_fst]
      rw [hg, onSnapshot_fst]; exact noop _ _
    rw [onSnapshot_eq ((onSnapshot ls0 snap).1) snap]
    show (reconcileType (onSnapshot ls0 snap).1 snap .movement).2 ++
        (reconcileType
          (reconcileType (onSnapshot ls0 snap).1 snap .movement).1 snap
          .hydration).2 = []
    rw [hA, hB]; rfl
  · have f0 : (onSnapshot ls s0).1.get t = none := by
      rw [onSnapshot_fst, hs0]; rfl
    have f1 : (onSnapshot (onSnapshot ls s0).1 s1).1.get t = some r1.id := by
      rw [onSnapshot_fst, hs1]; rfl
    have f2 : (onSnapshot (onSnapshot (onSnapshot ls s0).1 s1).1 s2).1.get t =
        some r2.id := by
      rw [onSnapshot_fst, hs2]; rfl
    have e0 : tasksFor t (onSnapshot ls s0).2 = [] := by
      rw [onSnapshot_tasksFor, h0, hs0]; rfl
    have e1 : tasksFor t (onSnapshot (onSnapshot ls s0).1 s1).2 =
        [Task.sendNotification r1 t] := by
      rw [onSnapshot_tasksFor, f0, hs1]; rfl
    have e2 : tasksFor t
        (onSnapshot (onSnapshot (onSnapshot ls s0).1 s1).1 s2).2 = [] := by
      rw [onSnapshot_tasksFor, f1, hs2, hr1]
      simp [specEffect, hr2]
    have e3 : tasksFor t
        (onSnapshot (onSnapshot (onSnapshot (onSnapshot ls s0).1 s1).1 s2).1
          s3).2 = [Task.dismissNotification t] := by
      rw [onSnapshot_tasksFor, f2, hs3]; rfl
    simp [runSnaps, tasksFor_append, e0, e1, e2, e3, tasksFor_nil]

theorem c6_witness :
    LastSeen.empty.get ReminderType.movement = none ∧
    (Snapshot.mk none none).get ReminderType.movement = none ∧
    (Snapshot.mk (some ⟨5, "a"⟩) none).get ReminderType.movement = some ⟨5, "a"⟩ ∧
    Reminder.id ⟨5, "a"⟩ = 5 ∧
    (Snapshot.mk (some ⟨5, "b"⟩) none).get ReminderType.movement = some ⟨5, "b"⟩ ∧
    Reminder.id ⟨5, "b"⟩ = 5 ∧
    (Snapshot.mk none none).get ReminderType.movement = none ∧
    ((onSnapshot (onSnapshot LastSeen.empty
        (Snapshot.mk (some ⟨5, "a"⟩) none)).1
        (Snapshot.mk (some ⟨5, "a"⟩) none)).2 = [] ∧
      tasksFor ReminderType.movement
        (runSnaps LastSeen.empty
          [Snapshot.mk none none, Snapshot.mk (some ⟨5, "a"⟩) none,
            Snapshot.mk (some ⟨5, "b"⟩) none, Snapshot.mk none none]).2 =
        [Task.sendNotification ⟨5, "a"⟩ ReminderType.movement,
          Task.dismissNotification ReminderType.movement]) :=
  ⟨by decide, by decide, by decide, by decide, by decide, by decide, by decide,
    c6_idempotent_replay LastSeen.empty (Snapshot.mk (some ⟨5, "a"⟩) none)
      LastSeen.empty ReminderType.movement (Snapshot.mk none none)
      (Snapshot.mk (some ⟨5, "a"⟩) none) (Snapshot.mk (some ⟨5, "b"⟩) none)
      (Snapshot.mk none none) ⟨5, "a"⟩ ⟨5, "b"⟩ (by decide) (by decide)
      (by decide) (by decide) (by decide) (by decide) (by decide)⟩

/-- Claim C7: for every parsed action token the submitted acknowledgment
carries the parsed reminder id and the response of the fixed table
DONE/SKIP/SNOOZE/ALT to done/skipped/snoozed/alternative, and the notes field
is present exactly when the verb is ALT with a non-empty reply text, in which
case it equals the reply text. -/
theorem c7_request_fields (ls : LastSeen) (ev : ActionEvent)
    (outcome : AckOutcome) (v : Verb) (rid : Nat)
    (hp : parseAction ev.action = some (v, rid)) :
    (handleAction ls ev outcome).requests =
      [{ reminderId := rid, response := v.response,
         notes :=
           if v = Verb.ALT ∧ ev.replyText.getD "" ≠ "" then
             some (ev.replyText.getD "")
           else none }] ∧
    Verb.DONE.response = "done" ∧ Verb.SKIP.response = "skipped" ∧
    Verb.SNOOZE.response = "snoozed" ∧ Verb.ALT.response = "alternative" := by
  rw [handleAction_parsed ls ev outcome v rid hp]
  exact ⟨rfl, rfl, rfl, rfl, rfl⟩

theorem c7_witness :
    parseAction "KHEALTH_ALT_42" = some (Verb.ALT, 42) ∧
    ((handleAction LastSeen.empty ⟨"KHEALTH_ALT_42", some "walked the dog"⟩
        (AckOutcome.status 200)).requests =
      [{ reminderId := 42, response := Verb.ALT.response,
         notes :=
           if Verb.ALT = Verb.ALT ∧
               (Option.getD (some "walked the dog") "" ≠ "") then
             some (Option.getD (some "walked the dog") "")
           else none }] ∧
      Verb.DONE.response = "done" ∧ Verb.SKIP.response = "skipped" ∧
      Verb.SNOOZE.response = "snoozed" ∧ Verb.ALT.response = "alternative") :=
  ⟨by decide,
    c7_request_fields LastSeen.empty ⟨"KHEALTH_ALT_42", some "walked the dog"⟩
      (AckOutcome.status 200) Verb.ALT 42 (by decide)⟩

/-- Claim C8: an inbound action event whose action string does not match the
token shape is ignored: no acknowledgment request, no channel call, no error,
and no state change. -/
theorem c8_malformed_ignored (ls : LastSeen) (ev : ActionEvent)
    (outcome : AckOutcome) (hp : parseAction ev.action = none) :
    handleAction ls ev outcome = ⟨[], [], ls⟩ := by
  simp [handleAction, hp]

theorem c8_witness :
    parseAction "SOME_OTHER_ACTION" = none ∧
    handleAction LastSeen.empty ⟨"SOME_OTHER_ACTION", none⟩
        (AckOutcome.status 200) =
      ⟨[], [], LastSeen.empty⟩ :=
  ⟨by decide,
    c8_malformed_ignored LastSeen.empty ⟨"SOME_OTHER_ACTION", none⟩
      (AckOutcome.status 200) (by decide)⟩

/-- Claim C9: every Send for `t` uses the tag `khealth-<t>` and carries
exactly four actions in the order Done, Skip, Snooze, Alternative, each
identifier encoding the verb and the reminder id, with only the Alternative
action requesting free-text input; every Dismiss for `t` uses the identical
tag together with the sentinel message `clear_notification`. -/
theorem c9_payload_shapes (r : Reminder) (t : ReminderType) :
    (Task.sendNotification r t).payload.tag = some ("khealth-" ++ t.str) ∧
    (Task.sendNotification r t).payload.message = r.message ∧
    ((Task.sendNotification r t).payload.actions).map NotifyAction.title =
      ["Done", "Skip", "Snooze", "Alternative..."] ∧
    ((Task.sendNotification r t).payload.actions).map NotifyAction.action =
      ["KHEALTH_DONE_" ++ toString r.id, "KHEALTH_SKIP_" ++ toString r.id,
        "KHEALTH_SNOOZE_" ++ toString r.id, "KHEALTH_ALT_" ++ toString r.id] ∧
    ((Task.sendNotification r t).payload.actions).map NotifyAction.behavior =
      [none, none, none, some "textInput"] ∧
    (Task.dismissNotification t).payload.tag = some ("khealth-" ++ t.str) ∧
    (Task.dismissNotification t).payload.message = "clear_notification" :=
  ⟨rfl, rfl, rfl, rfl, rfl, rfl, rfl⟩

/-- Claim C10: handling an inbound action event never mutates the `last_seen`
map, whatever the outcome; in particular the Dismiss issued on a conclusive
outcome leaves `LastSeen[t]` still equal to the acknowledged id rather than
resetting it to `none`. -/
theorem c10_action_frame (ls : LastSeen) (ev : ActionEvent)
    (outcome : AckOutcome) : (handleAction ls ev outcome).lastSeen = ls :=
  handleAction_lastSeen ls ev outcome

end Khealth
